import Mathlib

/-!
Verification development for the PolyLlama model router
(`stack/router/model_router.lua`): a shallow embedding of the routing,
mapping, locking and pull-tracking logic, together with theorems about
the properties the specification states.

Modelling conventions:
* `ngx.shared.model_mappings` is an association list from keys to decoded
  values (`ShmVal`); `ShmVal.corrupt` stands for an entry that is present
  (so `add` fails on it) but whose value reads back as nil/false.
* The aggregated result of `get_running_models()` (an HTTP fan-out to all
  backend instances) is the I/O boundary: it is supplied as the
  environment field `running`.
* `ngx.time()`, `ngx.worker.id()`, the instance count and the outcome of
  the backend pull call are likewise environment fields.
* Logging calls are omitted: they do not affect control flow or state.
-/

set_option autoImplicit false

namespace PolyLlama

/-- Association-list lookup: first binding wins, as in a Lua table /
nginx shared dict keyed by strings. -/
def sget {α : Type} : List (String × α) → String → Option α
  | [], _ => none
  | (k', v) :: t, k => if k' = k then some v else sget t k

/-- Replace-or-insert, the semantics of `ngx.shared.DICT:set`. -/
def shmSet {α : Type} (l : List (String × α)) (k : String) (v : α) : List (String × α) :=
  (k, v) :: l.filter (fun p => p.1 ≠ k)

/-- `ngx.shared.DICT:delete`. -/
def shmDelete {α : Type} (l : List (String × α)) (k : String) : List (String × α) :=
  l.filter (fun p => p.1 ≠ k)

/-- `ngx.shared.DICT:add`: atomic add-if-absent; fails iff the key is
present (readable or not). -/
def shmAdd {α : Type} (l : List (String × α)) (k : String) (v : α) :
    List (String × α) × Bool :=
  if (sget l k).isSome then (l, false) else ((k, v) :: l, true)

@[simp] theorem sget_nil {α : Type} (k : String) : sget ([] : List (String × α)) k = none := rfl

@[simp] theorem sget_cons {α : Type} (k k' : String) (v : α) (t : List (String × α)) :
    sget ((k', v) :: t) k = if k' = k then some v else sget t k := rfl

theorem sget_filter_ne {α : Type} (l : List (String × α)) (k k' : String) (h : k ≠ k') :
    sget (l.filter (fun p => p.1 ≠ k)) k' = sget l k' := by
  induction l with
  | nil => rfl
  | cons p t ih =>
    cases p with
    | mk pk pv =>
      simp only [ne_eq, decide_not] at ih ⊢
      by_cases hpk : pk = k
      · simp [List.filter_cons, hpk, ih, h]
      · simp [List.filter_cons, hpk, ih]

theorem sget_shmSet_self {α : Type} (l : List (String × α)) (k : String) (v : α) :
    sget (shmSet l k v) k = some v := by
  simp [shmSet]

theorem sget_shmSet_ne {α : Type} (l : List (String × α)) (k k' : String) (v : α)
    (h : k ≠ k') : sget (shmSet l k v) k' = sget l k' := by
  simp only [shmSet, sget_cons, sget_filter_ne l k k' h]
  simp [h]

theorem sget_shmDelete_self {α : Type} (l : List (String × α)) (k : String) :
    sget (shmDelete l k) k = none := by
  induction l with
  | nil => rfl
  | cons p t ih =>
    cases p with
    | mk pk pv =>
      by_cases hpk : pk = k
      · simp [shmDelete, List.filter_cons, hpk] at ih ⊢; exact ih
      · simp [shmDelete, List.filter_cons, hpk] at ih ⊢; simp [ih, hpk]

theorem sget_shmDelete_ne {α : Type} (l : List (String × α)) (k k' : String)
    (h : k ≠ k') : sget (shmDelete l k) k' = sget l k' :=
  sget_filter_ne l k k' h

/-! ## Data model -/

/-- Status values of a pull job (`pull_status.status` strings in the source). -/
inductive PStatus where
  | starting
  | in_progress
  | completed
  | failed
  | timeout
deriving DecidableEq, Repr

/-- A pull-status record, as stored JSON-encoded under `"pull_status:" .. pull_id`. -/
structure PullStatus where
  id : String
  model : String
  instance_ : String
  status : PStatus
  progress : Nat
  started_at : Nat
  completed_at : Option Nat := none
  stage : String
  error : Option String := none
deriving DecidableEq, Repr

/-- Decoded view of a value stored in `ngx.shared.model_mappings`.
`mapping` is a base64-encoded JSON mapping record, `lockVal` the plain
instance string stored under a `"loading:" .. model` key, `pullStatus` a
JSON pull record, and `corrupt` an entry that is present (so `add` fails)
but reads back as nil/false. -/
inductive ShmVal where
  | mapping (instance_ : String) (running : Bool)
  | lockVal (owner : String)
  | pullStatus (ps : PullStatus)
  | corrupt
deriving DecidableEq, Repr

/-- Stand-in for the base64(cjson) encoding of a mapping record; only its
truthiness and inequality to other raw strings matter in the model. -/
def mappingEncoded (instance_ : String) (running : Bool) : String :=
  "b64:" ++ instance_ ++ ":" ++ (if running then "true" else "false")

/-- Raw string a `DICT:get` returns for a stored value, `none` for a
corrupt/falsy entry. -/
def ShmVal.asLuaString : ShmVal → Option String
  | .mapping i r => some (mappingEncoded i r)
  | .lockVal owner => some owner
  | .pullStatus ps => some ("json:" ++ ps.id)
  | .corrupt => none

/-- Environment of one router call: the I/O boundary. `running` is the
aggregate `get_running_models()` would assemble from the per-instance
`/api/ps` responses, `instanceCount` the `OLLAMA_INSTANCE_COUNT` shared
variable, `now` is `ngx.time()`, `workerId` is `ngx.worker.id()`, and
`pullOk inst` tells whether `POST http://inst:11434/api/pull` returns 200. -/
structure Env where
  running : List (String × List String)
  instanceCount : Nat
  now : Nat
  workerId : Nat
  pullOk : String → Bool

/-- Mutable state of the router: the shared dict `model_mappings` plus the
worker-local `running_models_cache` (`data` and `timestamp`; `ttl` is the
constant 30). -/
structure RouterState where
  shm : List (String × ShmVal)
  cacheData : List (String × List String)
  cacheTimestamp : Nat
deriving DecidableEq, Repr

/-! ## Running-model cache -/

/-- Function `_M.invalidate_running_models_cache`. -/
def invalidate_running_models_cache (s : RouterState) : RouterState :=
  { s with cacheTimestamp := 0 }

/-- Function `_M.force_refresh_running_models_cache`: re-polls all backends
(`env.running`) and stamps the cache. -/
def force_refresh_running_models_cache (env : Env) (s : RouterState) : RouterState :=
  { s with cacheData := env.running, cacheTimestamp := env.now }

/-- Function `_M.is_model_running_on_any_instance model force`: serve from
the cache (refreshing it when forced or expired past the 30s ttl), and on
a miss without `force` retry exactly once with a forced refresh. -/
def is_model_running_on_any_instance (model : String) (force : Bool) (env : Env)
    (s : RouterState) : RouterState × Option String :=
  let s1 := if force || decide (env.now - s.cacheTimestamp > 30) then
    force_refresh_running_models_cache env s else s
  match sget s1.cacheData model with
  | some (i :: _) => (s1, some i)
  | _ =>
    if force then (s1, none)
    else
      let s2 := force_refresh_running_models_cache env s1
      match sget s2.cacheData model with
      | some (i :: _) => (s2, some i)
      | _ => (s2, none)

/-! ## Mapping store helpers -/

/-- Function `_M.get_model_mapping_info`: decode the stored record for a
model, `none` when absent or undecodable. -/
def get_model_mapping_info (s : RouterState) (model : String) : Option (String × Bool) :=
  match sget s.shm model with
  | some (.mapping i r) => some (i, r)
  | _ => none

/-- Function `_M.get_safe_instance_mapping`. -/
def get_safe_instance_mapping (s : RouterState) (model : String) : Option String :=
  match get_model_mapping_info s model with
  | some (i, _) => some i
  | none => none

/-- Function `_M.is_model_running_from_mapping`. -/
def is_model_running_from_mapping (s : RouterState) (model : String) : Bool :=
  match get_model_mapping_info s model with
  | some (_, r) => r
  | none => false

/-- Function `_M.set_model_mapping`: write the record and invalidate the
running-models cache only when the (instance, running) tuple actually
changes. The returned flag is true exactly when the write-and-invalidate
branch ran. -/
def set_model_mapping (model instance_ : String) (is_running : Bool)
    (s : RouterState) : RouterState × Bool :=
  let current_mapping := get_safe_instance_mapping s model
  let current_running := is_model_running_from_mapping s model
  if current_mapping ≠ some instance_ ∨ current_running ≠ is_running then
    (invalidate_running_models_cache
      { s with shm := shmSet s.shm model (.mapping instance_ is_running) }, true)
  else
    (s, false)

/-- Function `_M.get_instance_for_model`: stored mapping first (the
"verify it's running" loop in the source only logs; both of its exits
return the mapped instance), then the running check with force refresh
(recording a running mapping on a hit), and otherwise no assignment. -/
def get_instance_for_model (model : String) (env : Env) (s : RouterState) :
    RouterState × Option String :=
  match get_safe_instance_mapping s model with
  | some inst => (s, some inst)
  | none =>
    let (s1, running_instance) := is_model_running_on_any_instance model true env s
    match running_instance with
    | some ri => ((set_model_mapping model ri true s1).1, some ri)
    | none => (s1, none)

/-! ## Instance selector -/

/-- Value of the Lua pattern match `string.match(key, "^loading:")` used to
skip lock keys. -/
def isLoadingKey (k : String) : Bool :=
  "loading:".toList.isPrefixOf k.toList

/-- Numeric value of a list of decimal digit characters. -/
def digitsVal (ds : List Char) : Nat :=
  ds.foldl (fun acc c => acc * 10 + (c.toNat - '0'.toNat)) 0

/-- The Lua pattern `"ollama(%d+)"` applied by
`assign_model_to_least_loaded_instance` to a stored instance name:
search for the literal `ollama` followed by at least one digit, capture
the maximal digit run, convert with `tonumber`. On a literal hit with no
following digit the search resumes one character further, as Lua does. -/
def luaOllamaNum : List Char → Option Nat
  | 'o' :: 'l' :: 'l' :: 'a' :: 'm' :: 'a' :: rest =>
    let ds := rest.takeWhile Char.isDigit
    if ds.isEmpty then luaOllamaNum ('l' :: 'l' :: 'a' :: 'm' :: 'a' :: rest)
    else some (digitsVal ds)
  | _ :: t => luaOllamaNum t
  | [] => none

/-- Increment `counts[idx]` (1-based, as Lua's `instance_counts[instance_num]`);
out-of-range indices leave the table unchanged. -/
def bumpAt : List (String × Nat) → Nat → List (String × Nat)
  | [], _ => []
  | x :: t, 0 => x :: t
  | x :: t, 1 => (x.1, x.2 + 1) :: t
  | x :: t, n + 2 => x :: bumpAt t (n + 1)

/-- Head of `instance_counts` after `table.sort` ascending by count: the
first entry attaining the minimal count. (Lua's `table.sort` is not
stable in general, but on the all-equal-count arrays this tally produces
it performs no swaps, so taking the first minimal entry coincides with
the source's `instance_counts[1]`.) -/
def selectMinByCount : List (String × Nat) → Option (String × Nat)
  | [] => none
  | x :: t => some (t.foldl (fun best y => if y.2 < best.2 then y else best) x)

/-- The per-instance tally loop of `assign_model_to_least_loaded_instance`:
over all non-lock keys, decode the mapped instance and bump the slot the
pattern `"ollama(%d+)"` extracts from it. -/
def tallyInstanceCounts (env : Env) (s : RouterState) : List (String × Nat) :=
  let base := (List.range' 1 env.instanceCount).map
    (fun i => ("polyllama" ++ toString i, 0))
  (s.shm.map (fun p => p.1)).foldl (fun counts key =>
    if isLoadingKey key then counts
    else
      match get_safe_instance_mapping s key with
      | some inst =>
        match luaOllamaNum inst.toList with
        | some num => bumpAt counts num
        | none => counts
      | none => counts) base

/-- Function `_M.assign_model_to_least_loaded_instance`: tally, pick the
least-loaded instance, store the new mapping with `running = false`, and
return the chosen instance. (With zero configured instances the Lua code
would raise on `instance_counts[1]`; the model returns `none` there.) -/
def assign_model_to_least_loaded_instance (model : String) (env : Env)
    (s : RouterState) : RouterState × Option String :=
  match selectMinByCount (tallyInstanceCounts env s) with
  | none => (s, none)
  | some (least_loaded, _) =>
    ((set_model_mapping model least_loaded false s).1, some least_loaded)

/-! ## Loading lock manager -/

/-- Function `_M.lock_model_loading`: refuse when the model already runs
somewhere (recording that mapping), otherwise add-if-absent a 1-hour lock;
on failure surface a readable owner, and for an unreadable one delete the
lock and retry the add exactly once. Returns (state, acquired, owner). -/
def lock_model_loading (model instance_ : String) (env : Env) (s : RouterState) :
    RouterState × Bool × Option String :=
  let lock_key := "loading:" ++ model
  let (s1, running_instance) := is_model_running_on_any_instance model true env s
  match running_instance with
  | some ri => ((set_model_mapping model ri true s1).1, false, some ri)
  | none =>
    let (shm2, ok) := shmAdd s1.shm lock_key (.lockVal instance_)
    if ok then ({ s1 with shm := shm2 }, true, none)
    else
      match (sget s1.shm lock_key).bind ShmVal.asLuaString with
      | some current_loader => (s1, false, some current_loader)
      | none =>
        let shm3 := shmDelete s1.shm lock_key
        let (shm4, ok2) := shmAdd shm3 lock_key (.lockVal instance_)
        if ok2 then ({ s1 with shm := shm4 }, true, none)
        else ({ s1 with shm := shm3 }, false, none)

/-- Function `_M.unlock_model_loading`: delete the lock key and invalidate
the running-models cache. -/
def unlock_model_loading (model : String) (s : RouterState) : RouterState :=
  invalidate_running_models_cache
    { s with shm := shmDelete s.shm ("loading:" ++ model) }

/-- Function `_M.table_contains`. -/
def table_contains (l : List String) (v : String) : Bool :=
  l.contains v

/-! ## Consistency checker -/

/-- Loop body of `check_and_fix_inconsistent_mappings` for one running
model `p`: skip models with no running instance; when the current mapping
is absent or points at an instance the model is not running on, rewrite it
to the first running instance (marked running) and count the fix. -/
def checkfix_step (acc : RouterState × Nat) (p : String × List String) :
    RouterState × Nat :=
  match p.2 with
  | [] => acc
  | preferred :: _ =>
    match get_safe_instance_mapping acc.1 p.1 with
    | some cur =>
      if table_contains p.2 cur then acc
      else ((set_model_mapping p.1 preferred true acc.1).1, acc.2 + 1)
    | none => ((set_model_mapping p.1 preferred true acc.1).1, acc.2 + 1)

/-- Function `_M.check_and_fix_inconsistent_mappings`: fold the fix step
over every running model. (`detect_duplicate_model_instances` only logs.) -/
def check_and_fix_inconsistent_mappings (env : Env) (s : RouterState) :
    RouterState × Nat :=
  env.running.foldl checkfix_step (s, 0)

/-! ## Pull manager -/

/-- The Lua `string.gsub(full_model_name, "[^%w]", "_")` used when forming
a pull id. -/
def luaSanitize (s : String) : String :=
  String.mk (s.toList.map (fun c => if c.isAlphanum then c else '_'))

/-- The pull id `"pull_" .. ngx.time() .. "_" .. ngx.worker.id() .. "_" ..`
sanitized model name. -/
def pullIdOf (env : Env) (full_model_name : String) : String :=
  "pull_" ++ toString env.now ++ "_" ++ toString env.workerId ++ "_"
    ++ luaSanitize full_model_name

/-- Result table of `_M.pull_model`. -/
structure PullResult where
  success : Bool
  error : Option String := none
  pull_id : Option String := none
  existing_loader : Option String := none
  model : Option String := none
  instance_ : Option String := none
deriving DecidableEq, Repr

/-- Lines 1146-1215 of `pull_model`, from the lock check onward: reject
only when the lock was refused AND an owner was reported; otherwise store
a `starting` record, issue the backend pull, and move the record to
`in_progress` on success or to `failed` (releasing the lock) on failure.
The backend's error text is abstracted to a fixed string. -/
def pull_model_after_lock (env : Env) (s : RouterState)
    (full_model_name target_instance : String) (lock_acquired : Bool)
    (existing_loader : Option String) : RouterState × PullResult :=
  if !lock_acquired && existing_loader.isSome then
    (s, { success := false,
          error := some "Model is already being pulled",
          existing_loader := existing_loader })
  else
    let pull_id := pullIdOf env full_model_name
    let status_key := "pull_status:" ++ pull_id
    let ps : PullStatus :=
      { id := pull_id, model := full_model_name, instance_ := target_instance,
        status := .starting, progress := 0, started_at := env.now,
        stage := "Initializing" }
    let s1 := { s with shm := shmSet s.shm status_key (.pullStatus ps) }
    if env.pullOk target_instance then
      let ps2 := { ps with status := .in_progress, stage := "Downloading" }
      ({ s1 with shm := shmSet s1.shm status_key (.pullStatus ps2) },
        { success := true, pull_id := some pull_id,
          model := some full_model_name, instance_ := some target_instance })
    else
      let ps2 := { ps with
        status := .failed, error := some "pull request failed",
        completed_at := some env.now }
      (unlock_model_loading full_model_name
         { s1 with shm := shmSet s1.shm status_key (.pullStatus ps2) },
        { success := false, error := some "Failed to start model pull",
          pull_id := some pull_id })

/-- Function `_M.pull_model`: default the tag, pick a target via the
least-loaded selector when none is given, take the loading lock, then
run the post-lock phase. -/
def pull_model (model_name : String) (tag : Option String)
    (target_instance : Option String) (env : Env) (s : RouterState) :
    RouterState × PullResult :=
  if model_name = "" then
    (s, { success := false, error := some "Model name is required" })
  else
    let tag := tag.getD "latest"
    let full_model_name := model_name ++ ":" ++ tag
    let (s1, target) := match target_instance with
      | some t => (s, some t)
      | none => assign_model_to_least_loaded_instance full_model_name env s
    match target with
    | none =>
      (s1, { success := false, error := some "No available instance for model pull" })
    | some t =>
      let (s2, acquired, owner) := lock_model_loading full_model_name t env s1
      pull_model_after_lock env s2 full_model_name t acquired owner

/-- Result table of `_M.get_pull_status`. -/
structure GetPullResult where
  success : Bool
  error : Option String := none
  pull_status : Option PullStatus := none
deriving DecidableEq, Repr

/-- Function `_M.get_pull_status`: look the record up; while it is
`in_progress`, consult the running cache — a hit completes the job
(progress 100, stamped, written back, lock released); otherwise more than
1800 s since `started_at` times it out (written back, lock released). -/
def get_pull_status (pull_id : String) (env : Env) (s : RouterState) :
    RouterState × GetPullResult :=
  if pull_id = "" then (s, { success := false, error := some "Pull ID is required" })
  else
    let status_key := "pull_status:" ++ pull_id
    match sget s.shm status_key with
    | none => (s, { success := false, error := some "Pull status not found" })
    | some .corrupt => (s, { success := false, error := some "Pull status not found" })
    | some (.mapping _ _) =>
      (s, { success := false, error := some "Failed to decode pull status" })
    | some (.lockVal _) =>
      (s, { success := false, error := some "Failed to decode pull status" })
    | some (.pullStatus status) =>
      if status.status = .in_progress then
        let (s1, running_instance) :=
          is_model_running_on_any_instance status.model false env s
        match running_instance with
        | some _ =>
          let status' := { status with
            status := .completed, progress := 100,
            stage := "Completed", completed_at := some env.now }
          let s2 := { s1 with shm := shmSet s1.shm status_key (.pullStatus status') }
          (unlock_model_loading status.model s2,
            { success := true, pull_status := some status' })
        | none =>
          if env.now - status.started_at > 1800 then
            let status' := { status with
              status := .timeout, stage := "Timeout after 30 minutes",
              completed_at := some env.now }
            let s2 := { s1 with shm := shmSet s1.shm status_key (.pullStatus status') }
            (unlock_model_loading status.model s2,
              { success := true, pull_status := some status' })
          else (s1, { success := true, pull_status := some status })
      else (s, { success := true, pull_status := some status })

/-! ## Model name extractor -/

/-- One entry of a JSON `messages` array, as probed by the extractor. -/
structure MsgEntry where
  model : Option String := none
deriving DecidableEq, Repr

/-- The JSON `parameters` object, as probed by the extractor. -/
structure ParamsObj where
  model : Option String := none
deriving DecidableEq, Repr

/-- The fields of a decoded JSON request body that
`extract_model_name` probes. (`num_ctx` and friends are only logged.) -/
structure JsonBody where
  model : Option String := none
  name : Option String := none
  messages : List MsgEntry := []
  parameters : Option ParamsObj := none
deriving DecidableEq, Repr

/-- A request body: either JSON that `cjson.decode` accepts, or opaque
data whose parsed form-encoded arguments are what
`ngx.req.get_post_args()` would return. -/
inductive ReqBody where
  | jsonBody (b : JsonBody)
  | formBody (args : List (String × String))
deriving DecidableEq, Repr

/-- An inbound request as seen by the extractor. Header names are as
`ngx.req.get_headers()` exposes them (lowercased). -/
structure Request where
  method : String
  request_uri : String
  headers : List (String × String) := []
  body : Option ReqBody := none
  uri_args : List (String × String) := []
deriving DecidableEq, Repr

/-- A Lua pattern of the shape `lit([^bad]+)`, unanchored: find the first
occurrence of the literal followed by a nonempty capture of characters
other than `bad`; on a literal hit with an empty capture the search
resumes one character further, as Lua does. -/
def luaCaptureAfter (lit : List Char) (bad : Char) : List Char → Option (List Char)
  | [] => none
  | c :: t =>
    if lit.isPrefixOf (c :: t) then
      let cap := ((c :: t).drop lit.length).takeWhile (fun d => d ≠ bad)
      if cap.isEmpty then luaCaptureAfter lit bad t else some cap
    else luaCaptureAfter lit bad t

/-- The five URL patterns of `extract_model_name`, tried in order. -/
def urlPatternExtract (uri : String) : Option String :=
  let try_ := fun (lit : String) (bad : Char) =>
    (luaCaptureAfter lit.toList bad uri.toList).map fun l => String.mk l
  (try_ "/api/generate?model=" '&') <|>
  (try_ "/api/chat/" '/') <|>
  (try_ "/api/embeddings/" '/') <|>
  (try_ "/v1/models/" '/') <|>
  (try_ "/v1/chat/completions?model=" '&')

/-- The body-probing portion of `extract_model_name`: direct `model`
field, the Ollama `name` field (only for `/api/generate`), then
`messages[1].model`, then `parameters.model`. -/
def bodyExtract (request_uri : String) (b : JsonBody) : Option String :=
  match b.model with
  | some m => some m
  | none =>
    match (if request_uri = "/api/generate" then b.name else none) with
    | some n => some n
    | none =>
      match b.messages.head? >>= fun msg => msg.model with
      | some m => some m
      | none => b.parameters >>= fun p => p.model

/-- Function `_M.extract_model_name`: body strategies for POST/PUT
(including the form-data fallback when JSON parsing fails), then URL
patterns, then the `model` query argument, then the Ollama-specific and
`x-model` headers. -/
def extract_model_name (req : Request) : Option String :=
  let from_body : Option String :=
    if req.method = "POST" || req.method = "PUT" then
      match req.body with
      | some (.jsonBody b) => bodyExtract req.request_uri b
      | some (.formBody args) => sget args "model"
      | none => none
    else none
  match from_body with
  | some m => some m
  | none =>
    match urlPatternExtract req.request_uri with
    | some m => some m
    | none =>
      match sget req.uri_args "model" with
      | some m => some m
      | none =>
        match (if req.request_uri = "/api/generate" then
                 sget req.headers "ollama-model" else none) with
        | some m => some m
        | none => sget req.headers "x-model"

/-! ## Concrete states and environments used by witnesses and
counterexamples -/

/-- Two configured instances, nothing running, second 100, worker 0,
backend pull calls succeed. -/
def wEnv : Env :=
  { running := [], instanceCount := 2, now := 100, workerId := 0, pullOk := fun _ => true }

/-- Same as `wEnv` but the backend pull call fails. -/
def wEnvPullFail : Env :=
  { running := [], instanceCount := 2, now := 100, workerId := 0, pullOk := fun _ => false }

/-- Three configured instances, nothing running. -/
def wEnv3 : Env :=
  { running := [], instanceCount := 3, now := 100, workerId := 0, pullOk := fun _ => true }

/-- Empty shared dict and cold cache. -/
def wS0 : RouterState := { shm := [], cacheData := [], cacheTimestamp := 0 }

/-- Model `x` observed running only on instance 2. -/
def wEnvX2 : Env :=
  { running := [("x", ["polyllama2"])], instanceCount := 2, now := 100,
    workerId := 0, pullOk := fun _ => true }

/-- Model `x` mapped (stale) to instance 1. -/
def wSX1 : RouterState :=
  { shm := [("x", .mapping "polyllama1" false)], cacheData := [], cacheTimestamp := 0 }

/-- Mappings placing two models on instance 1 and one on instance 3:
per-instance loads {2, 0, 1} over three instances. -/
def wS201 : RouterState :=
  { shm := [("m1", .mapping "polyllama1" false), ("m2", .mapping "polyllama1" false),
            ("m3", .mapping "polyllama3" false)],
    cacheData := [], cacheTimestamp := 0 }

/-- POST with JSON body `{"model":"llama3"}`. -/
def wReqModelBody : Request :=
  { method := "POST", request_uri := "/api/chat",
    body := some (.jsonBody { model := some "llama3" }) }

/-- POST with JSON body `{"messages":[{"model":"gpt-x"}]}` and no
top-level `model` field. -/
def wReqMessages : Request :=
  { method := "POST", request_uri := "/v1/chat/completions",
    body := some (.jsonBody { messages := [{ model := some "gpt-x" }] }) }

/-- Body-less request with path `/embeddings/bge-small`. -/
def wReqEmbeddings : Request :=
  { method := "GET", request_uri := "/embeddings/bge-small" }

/-- Body-less request with path `/api/embeddings/bge-small`. -/
def wReqApiEmbeddings : Request :=
  { method := "GET", request_uri := "/api/embeddings/bge-small" }

/-- A lock entry for `m` that is present but unreadable. -/
def wSCorrupt : RouterState :=
  { shm := [("loading:m", .corrupt)], cacheData := [], cacheTimestamp := 0 }

/-- Model `m:latest` observed running on instance 2 at second 100. -/
def wEnvRunningM : Env :=
  { running := [("m:latest", ["polyllama2"])], instanceCount := 2, now := 100,
    workerId := 0, pullOk := fun _ => true }

/-- Nothing running, clock at second 2000 (more than 30 minutes after a
job started at second 100). -/
def wEnvLate : Env :=
  { running := [], instanceCount := 2, now := 2000, workerId := 0,
    pullOk := fun _ => true }

/-- An `in_progress` pull record for `m:latest` started at second 100. -/
def wPS : PullStatus :=
  { id := "pull_100_0_m_latest", model := "m:latest", instance_ := "polyllama1",
    status := .in_progress, progress := 0, started_at := 100,
    stage := "Downloading" }

/-- Store holding `wPS` and the matching loading lock. -/
def wSPull : RouterState :=
  { shm := [("pull_status:pull_100_0_m_latest", .pullStatus wPS),
            ("loading:m:latest", .lockVal "polyllama1")],
    cacheData := [], cacheTimestamp := 0 }

/-- Forward order of the pull state machine:
starting → in_progress → {completed, failed, timeout}. -/
def statusRank : PStatus → Nat
  | .starting => 0
  | .in_progress => 1
  | .completed => 2
  | .failed => 2
  | .timeout => 2

/-! ## Helper lemmas -/

@[simp] theorem force_refresh_shm (env : Env) (s : RouterState) :
    (force_refresh_running_models_cache env s).shm = s.shm := rfl

@[simp] theorem force_refresh_cacheData (env : Env) (s : RouterState) :
    (force_refresh_running_models_cache env s).cacheData = env.running := rfl

@[simp] theorem force_refresh_cacheTimestamp (env : Env) (s : RouterState) :
    (force_refresh_running_models_cache env s).cacheTimestamp = env.now := rfl

@[simp] theorem invalidate_shm (s : RouterState) :
    (invalidate_running_models_cache s).shm = s.shm := rfl

@[simp] theorem invalidate_cacheData (s : RouterState) :
    (invalidate_running_models_cache s).cacheData = s.cacheData := rfl

@[simp] theorem invalidate_cacheTimestamp (s : RouterState) :
    (invalidate_running_models_cache s).cacheTimestamp = 0 := rfl

theorem loading_key_ne_pull_status_key (a b : String) :
    "loading:" ++ a ≠ "pull_status:" ++ b := by
  intro h
  have h2 := congrArg String.data h
  rw [String.data_append, String.data_append] at h2
  have h3 := congrArg List.head? h2
  simp at h3

theorem set_model_mapping_shm_stores (m i : String) (r : Bool) (s : RouterState) :
    sget (set_model_mapping m i r s).1.shm m = some (.mapping i r) := by
  unfold set_model_mapping invalidate_running_models_cache
  by_cases hc : get_safe_instance_mapping s m ≠ some i ∨
      is_model_running_from_mapping s m ≠ r
  · simp only [hc, if_pos]
    exact sget_shmSet_self _ _ _
  · push_neg at hc
    obtain ⟨h1, h2⟩ := hc
    simp only [h1, h2]
    simp only [ne_eq, not_true_eq_false, or_self, if_false]
    unfold get_safe_instance_mapping get_model_mapping_info at h1
    unfold is_model_running_from_mapping get_model_mapping_info at h2
    cases hv : sget s.shm m with
    | none => rw [hv] at h1; simp at h1
    | some v =>
      cases v with
      | mapping i' r' =>
        rw [hv] at h1 h2
        simp at h1 h2
        rw [h1, h2]
      | lockVal o => rw [hv] at h1; simp at h1
      | pullStatus ps => rw [hv] at h1; simp at h1
      | corrupt => rw [hv] at h1; simp at h1

theorem set_model_mapping_shm_ne (m i k : String) (r : Bool) (s : RouterState)
    (h : m ≠ k) : sget (set_model_mapping m i r s).1.shm k = sget s.shm k := by
  unfold set_model_mapping invalidate_running_models_cache
  by_cases hc : get_safe_instance_mapping s m ≠ some i ∨
      is_model_running_from_mapping s m ≠ r
  · simp only [hc, if_pos]
    exact sget_shmSet_ne _ _ _ _ h
  · simp only [if_neg hc]

theorem isRunning_shm_eq (M : String) (f : Bool) (env : Env) (s : RouterState) :
    (is_model_running_on_any_instance M f env s).1.shm = s.shm := by
  unfold is_model_running_on_any_instance force_refresh_running_models_cache
  dsimp only
  repeat' split
  all_goals rfl

theorem isRunning_force_none (env : Env) (s : RouterState) (M : String)
    (h : (sget env.running M).getD [] = []) :
    is_model_running_on_any_instance M true env s =
      (force_refresh_running_models_cache env s, none) := by
  unfold is_model_running_on_any_instance
  simp only [Bool.true_or, if_true]
  cases hc : sget env.running M with
  | none => simp [force_refresh_running_models_cache, hc]
  | some l =>
    rw [hc] at h
    simp at h
    subst h
    simp [force_refresh_running_models_cache, hc]

theorem isRunning_none_of (env : Env) (s : RouterState) (M : String)
    (h1 : (sget env.running M).getD [] = [])
    (h2 : (sget s.cacheData M).getD [] = []) :
    (is_model_running_on_any_instance M false env s).2 = none := by
  have hrun : ∀ s' : RouterState,
      sget (force_refresh_running_models_cache env s').cacheData M = sget env.running M := by
    intro s'; rfl
  unfold is_model_running_on_any_instance
  simp only [Bool.false_or]
  split
  · rename_i heq
    split at heq
    · rw [hrun] at heq
      cases hc : sget env.running M with
      | none => rw [hc] at heq; simp at heq
      | some l => rw [hc] at h1; simp at h1; subst h1; rw [hc] at heq; simp at heq
    · cases hc : sget s.cacheData M with
      | none => rw [hc] at heq; simp at heq
      | some l => rw [hc] at h2; simp at h2; subst h2; rw [hc] at heq; simp at heq
  · simp only [if_neg Bool.false_ne_true]
    split
    · rename_i heq
      rw [hrun] at heq
      cases hc : sget env.running M with
      | none => rw [hc] at heq; simp at heq
      | some l => rw [hc] at h1; simp at h1; subst h1; rw [hc] at heq; simp at heq
    · rfl

theorem isRunning_isSome_of (env : Env) (s : RouterState) (M : String)
    (i : String) (l : List String) (h : sget env.running M = some (i :: l)) :
    ((is_model_running_on_any_instance M false env s).2).isSome = true := by
  have hrun : ∀ s' : RouterState,
      sget (force_refresh_running_models_cache env s').cacheData M = sget env.running M := by
    intro s'; rfl
  unfold is_model_running_on_any_instance
  simp only [Bool.false_or]
  split
  · simp
  · rename_i heq
    simp only [if_neg Bool.false_ne_true]
    split
    · simp
    · rename_i heq2
      exfalso
      rw [hrun, h] at heq2
      exact heq2 i l rfl

theorem lock_acquired_state (env : Env) (s : RouterState) (M A : String)
    (hrun : (sget env.running M).getD [] = [])
    (hacq : (lock_model_loading M A env s).2.1 = true) :
    sget (lock_model_loading M A env s).1.shm ("loading:" ++ M) =
      some (.lockVal A) := by
  unfold lock_model_loading at hacq ⊢
  rw [isRunning_force_none env s M hrun] at hacq ⊢
  dsimp only at hacq ⊢
  simp only [force_refresh_shm] at hacq ⊢
  cases hk : sget s.shm ("loading:" ++ M) with
  | none =>
    simp only [shmAdd, hk] at hacq ⊢
    simp [sget]
  | some v =>
    simp only [shmAdd, hk] at hacq ⊢
    cases v with
    | mapping i r => simp [ShmVal.asLuaString] at hacq
    | lockVal o => simp [ShmVal.asLuaString] at hacq
    | pullStatus ps => simp [ShmVal.asLuaString] at hacq
    | corrupt =>
      have hd : sget (shmDelete s.shm ("loading:" ++ M)) ("loading:" ++ M) = none :=
        sget_shmDelete_self _ _
      simp only [ShmVal.asLuaString, Option.bind, shmAdd, hd] at hacq ⊢
      simp [sget]

/-- Claim C1: when model `M` is not running on any instance and
`lock_model_loading M A` acquires the lock, a `lock_model_loading M B`
issued before any release is refused and reports `A` as the owning
instance. -/
theorem c1_second_lock_fails_with_owner (env : Env) (s : RouterState) (M A B : String)
    (hrun : (sget env.running M).getD [] = [])
    (hacq : (lock_model_loading M A env s).2.1 = true) :
    (lock_model_loading M B env (lock_model_loading M A env s).1).2.1 = false ∧
    (lock_model_loading M B env (lock_model_loading M A env s).1).2.2 = some A := by
  have hold := lock_acquired_state env s M A hrun hacq
  set t := lock_model_loading M A env s with ht
  unfold lock_model_loading
  rw [isRunning_force_none env t.1 M hrun]
  dsimp only
  simp [shmAdd, hold, ShmVal.asLuaString]

/-- Witness for C1 at a concrete state: empty store, two instances. -/
theorem c1_witness :
    (lock_model_loading "m" "polyllama2" wEnv
        (lock_model_loading "m" "polyllama1" wEnv wS0).1).2.1 = false ∧
    (lock_model_loading "m" "polyllama2" wEnv
        (lock_model_loading "m" "polyllama1" wEnv wS0).1).2.2 = some "polyllama1" :=
  c1_second_lock_fails_with_owner wEnv wS0 "m" "polyllama1" "polyllama2"
    (by decide) (by decide)

/-- Claim C4: a model with no stored mapping that is not observed running
anywhere (even after the forced refresh) gets `none` from
`get_instance_for_model` and no mapping is created. -/
theorem c4_unknown_model_not_assigned (env : Env) (s : RouterState) (M : String)
    (hmap : get_safe_instance_mapping s M = none)
    (hrun : (sget env.running M).getD [] = []) :
    (get_instance_for_model M env s).2 = none ∧
    (get_instance_for_model M env s).1.shm = s.shm := by
  unfold get_instance_for_model
  rw [hmap]
  rw [isRunning_force_none env s M hrun]
  exact ⟨rfl, rfl⟩

/-- Witness for C4 at a concrete state. -/
theorem c4_witness :
    (get_instance_for_model "m" wEnv wS0).2 = none ∧
    (get_instance_for_model "m" wEnv wS0).1.shm = wS0.shm :=
  c4_unknown_model_not_assigned wEnv wS0 "m" (by decide) (by decide)

theorem set_model_mapping_stale (s : RouterState) (m i : String) (r : Bool)
    (h : get_safe_instance_mapping s m ≠ some i ∨
      is_model_running_from_mapping s m ≠ r) :
    set_model_mapping m i r s =
      (invalidate_running_models_cache
        { s with shm := shmSet s.shm m (.mapping i r) }, true) := by
  unfold set_model_mapping
  rw [if_pos h]

/-- Claim C6: a second `set_model_mapping` with the identical
(model, instance, running) triple performs no store write and no
running-models-cache invalidation (the call returns the state unchanged
with the write flag false); any call whose (instance, running) tuple
differs from the stored one runs the write branch, which invalidates the
cache. -/
theorem c6_set_mapping_idempotent_suppression :
    (∀ (s : RouterState) (m i : String) (r : Bool),
      set_model_mapping m i r (set_model_mapping m i r s).1 =
        ((set_model_mapping m i r s).1, false)) ∧
    (∀ (s : RouterState) (m i : String) (r : Bool),
      (get_safe_instance_mapping s m ≠ some i ∨
        is_model_running_from_mapping s m ≠ r) →
      (set_model_mapping m i r s).2 = true ∧
      (set_model_mapping m i r s).1.cacheTimestamp = 0) := by
  constructor
  · intro s m i r
    have hst := set_model_mapping_shm_stores m i r s
    set t := set_model_mapping m i r s with ht
    have h1 : get_safe_instance_mapping t.1 m = some i := by
      unfold get_safe_instance_mapping get_model_mapping_info
      rw [hst]
    have h2 : is_model_running_from_mapping t.1 m = r := by
      unfold is_model_running_from_mapping get_model_mapping_info
      rw [hst]
    unfold set_model_mapping
    rw [h1, h2]
    simp
  · intro s m i r h
    rw [set_model_mapping_stale s m i r h]
    exact ⟨rfl, rfl⟩

/-- Witness for C6: a fresh write flips the flag and invalidates; the
repeat is suppressed. -/
theorem c6_witness :
    set_model_mapping "m" "polyllama1" false
        (set_model_mapping "m" "polyllama1" false wS0).1 =
      ((set_model_mapping "m" "polyllama1" false wS0).1, false) ∧
    ((set_model_mapping "m" "polyllama1" false wS0).2 = true ∧
      (set_model_mapping "m" "polyllama1" false wS0).1.cacheTimestamp = 0) :=
  ⟨c6_set_mapping_idempotent_suppression.1 wS0 "m" "polyllama1" false,
   c6_set_mapping_idempotent_suppression.2 wS0 "m" "polyllama1" false
     (by decide)⟩

theorem get_safe_set_ne (m i k : String) (r : Bool) (s : RouterState)
    (h : m ≠ k) :
    get_safe_instance_mapping (set_model_mapping m i r s).1 k =
      get_safe_instance_mapping s k := by
  unfold get_safe_instance_mapping get_model_mapping_info
  rw [set_model_mapping_shm_ne m i k r s h]

theorem checkfix_fold_consistent (L : List (String × List String)) :
    ∀ (st : RouterState) (n : Nat),
    (∀ p ∈ L, p.2 = [] ∨ ∃ cur, get_safe_instance_mapping st p.1 = some cur ∧
      table_contains p.2 cur = true) →
    L.foldl checkfix_step (st, n) = (st, n) := by
  induction L with
  | nil => intro st n _; rfl
  | cons p t ih =>
    intro st n h
    have hp := h p (by simp)
    have hstep : checkfix_step (st, n) p = (st, n) := by
      unfold checkfix_step
      rcases hp with hnil | ⟨cur, hcur, hcont⟩
      · rw [hnil]
      · cases hl : p.2 with
        | nil => rfl
        | cons a t2 =>
          rw [hl] at hcont
          rw [hcur]
          dsimp only
          simp [hcont]
    rw [List.foldl_cons, hstep]
    exact ih st n (fun q hq => h q (by simp [hq]))

/-- Claim C3: when model `X` is observed running only on instance `i2`
while its stored mapping points at `i1 ≠ i2`, and every other running
model's mapping is consistent, `check_and_fix_inconsistent_mappings`
rewrites `X`'s mapping to `i2` marked running and returns a fixed count
of exactly 1 (one more than the 0 an all-consistent state yields). -/
theorem c3_reconcile_fixes_exactly_one (env : Env) (s : RouterState)
    (X i1 i2 : String) (L1 L2 : List (String × List String))
    (hsplit : env.running = L1 ++ (X, [i2]) :: L2)
    (hmap : get_safe_instance_mapping s X = some i1)
    (hne : i1 ≠ i2)
    (hothers : ∀ p ∈ L1 ++ L2, p.2 = [] ∨
      ∃ cur, get_safe_instance_mapping s p.1 = some cur ∧
        table_contains p.2 cur = true)
    (hkeys : ∀ p ∈ L1 ++ L2, p.1 ≠ X) :
    (check_and_fix_inconsistent_mappings env s).2 = 1 ∧
    sget (check_and_fix_inconsistent_mappings env s).1.shm X =
      some (.mapping i2 true) := by
  unfold check_and_fix_inconsistent_mappings
  rw [hsplit, List.foldl_append]
  rw [checkfix_fold_consistent L1 s 0
    (fun p hp => hothers p (List.mem_append_left _ hp))]
  rw [List.foldl_cons]
  have hstep : checkfix_step (s, 0) (X, [i2]) =
      ((set_model_mapping X i2 true s).1, 1) := by
    unfold checkfix_step
    dsimp only
    rw [hmap]
    dsimp only
    have hct : table_contains [i2] i1 = false := by
      simp [table_contains, hne]
    simp [hct]
  rw [hstep]
  have hstored := set_model_mapping_shm_stores X i2 true s
  rw [checkfix_fold_consistent L2 (set_model_mapping X i2 true s).1 1
    (fun p hp => by
      have hh := hothers p (List.mem_append_right _ hp)
      have hk := hkeys p (List.mem_append_right _ hp)
      rcases hh with hnil | ⟨cur, hcur, hcont⟩
      · exact Or.inl hnil
      · exact Or.inr ⟨cur, by rw [get_safe_set_ne X i2 p.1 true s (fun he => hk he.symm)]; exact hcur, hcont⟩)]
  exact ⟨rfl, hstored⟩

/-- Witness for C3 at a concrete state: `x` running on instance 2, mapped
to instance 1. -/
theorem c3_witness :
    (check_and_fix_inconsistent_mappings wEnvX2 wSX1).2 = 1 ∧
    sget (check_and_fix_inconsistent_mappings wEnvX2 wSX1).1.shm "x" =
      some (.mapping "polyllama2" true) :=
  c3_reconcile_fixes_exactly_one wEnvX2 wSX1 "x" "polyllama1" "polyllama2"
    [] [] rfl (by decide) (by decide) (by simp) (by simp)

/-- Claim C2 (code bug): with stored mappings giving per-instance loads
{2, 0, 1} over three instances, the tally computed by
`assign_model_to_least_loaded_instance` is 0 for every instance — the Lua
pattern `ollama(%d+)` never matches the stored `polyllama<i>` names — and
the selection returns `polyllama1` (load 2) instead of the count-0
instance `polyllama2` the claim requires. -/
theorem c2_tally_blind_to_load :
    tallyInstanceCounts wEnv3 wS201 =
      [("polyllama1", 0), ("polyllama2", 0), ("polyllama3", 0)] ∧
    luaOllamaNum "polyllama1".toList = none ∧
    (assign_model_to_least_loaded_instance "m4" wEnv3 wS201).2 =
      some "polyllama1" ∧
    some "polyllama1" ≠ some "polyllama2" := by decide

/-- Claim C8 counterexample: a body-less request with path
`/embeddings/bge-small` extracts no model name at all (every URL pattern
expects an `/api/...` or `/v1/...` prefix), contradicting the claimed
`"bge-small"`. -/
theorem c8_counterexample_embeddings_path :
    extract_model_name wReqEmbeddings = none ∧
    extract_model_name wReqEmbeddings ≠ some "bge-small" := by decide

/-- Claim C8 as amended: the two body examples extract as claimed, and the
path example holds for the route the code actually matches,
`/api/embeddings/bge-small`. -/
theorem c8_extraction_examples :
    extract_model_name wReqModelBody = some "llama3" ∧
    extract_model_name wReqMessages = some "gpt-x" ∧
    extract_model_name wReqApiEmbeddings = some "bge-small" := by decide

/-- Claim C10 counterexample: assigning `m` writes the placement mapping
`m → polyllama1`, yet the subsequent tally still reads 0 for
`polyllama1`, and a second assignment returns `polyllama1` again instead
of the unloaded `polyllama2` — the written mapping never counts toward
the instance's load. -/
theorem c10_counterexample_placement_not_counted :
    (assign_model_to_least_loaded_instance "m" wEnv wS0).2 = some "polyllama1" ∧
    sget (assign_model_to_least_loaded_instance "m" wEnv wS0).1.shm "m" =
      some (.mapping "polyllama1" false) ∧
    tallyInstanceCounts wEnv (assign_model_to_least_loaded_instance "m" wEnv wS0).1 =
      [("polyllama1", 0), ("polyllama2", 0)] ∧
    (assign_model_to_least_loaded_instance "m2" wEnv
        (assign_model_to_least_loaded_instance "m" wEnv wS0).1).2 =
      some "polyllama1" := by decide

theorem luaSanitize_length (s : String) : (luaSanitize s).length = s.length := by
  unfold luaSanitize
  rw [String.length_mk, List.length_map]
  rfl

theorem loading_key_ne_model (a : String) : "loading:" ++ a ≠ a := by
  intro h
  have hlen := congrArg String.length h
  rw [String.length_append] at hlen
  have h8 : "loading:".length = 8 := rfl
  rw [h8] at hlen
  omega

theorem pull_key_ne_model (env : Env) (a : String) :
    "pull_status:" ++ pullIdOf env a ≠ a := by
  intro h
  have hlen := congrArg String.length h
  unfold pullIdOf at hlen
  simp only [String.length_append, luaSanitize_length] at hlen
  have h12 : "pull_status:".length = 12 := rfl
  have h5 : "pull_".length = 5 := rfl
  have h1 : "_".length = 1 := rfl
  rw [h12, h5, h1] at hlen
  omega

theorem lock_preserves_other_keys (env : Env) (s : RouterState)
    (M inst k : String)
    (hrun : (sget env.running M).getD [] = [])
    (hk : ("loading:" ++ M) ≠ k) :
    sget (lock_model_loading M inst env s).1.shm k = sget s.shm k := by
  unfold lock_model_loading
  rw [isRunning_force_none env s M hrun]
  dsimp only
  simp only [force_refresh_shm]
  cases hv : sget s.shm ("loading:" ++ M) with
  | none =>
    simp only [shmAdd, hv]
    simp [sget, hk]
  | some v =>
    simp only [shmAdd, hv]
    cases v with
    | mapping i r => simp [ShmVal.asLuaString]
    | lockVal o => simp [ShmVal.asLuaString]
    | pullStatus ps => simp [ShmVal.asLuaString]
    | corrupt =>
      have hd := sget_shmDelete_self s.shm ("loading:" ++ M)
      simp only [ShmVal.asLuaString, Option.bind, shmAdd, hd]
      simp [sget, hk, sget_shmDelete_ne s.shm ("loading:" ++ M) k hk]

theorem after_lock_preserves_key (env : Env) (s : RouterState)
    (full target k : String) (acq : Bool) (owner : Option String)
    (hk1 : ("pull_status:" ++ pullIdOf env full) ≠ k)
    (hk2 : ("loading:" ++ full) ≠ k) :
    sget (pull_model_after_lock env s full target acq owner).1.shm k =
      sget s.shm k := by
  unfold pull_model_after_lock
  split
  · rfl
  · dsimp only
    split
    · rw [sget_shmSet_ne _ _ _ _ hk1, sget_shmSet_ne _ _ _ _ hk1]
    · unfold unlock_model_loading
      simp only [invalidate_shm]
      rw [sget_shmDelete_ne _ _ _ hk2, sget_shmSet_ne _ _ _ _ hk1,
        sget_shmSet_ne _ _ _ _ hk1]

theorem assign_writes_mapping (env : Env) (s : RouterState) (m inst : String)
    (h : (assign_model_to_least_loaded_instance m env s).2 = some inst) :
    sget (assign_model_to_least_loaded_instance m env s).1.shm m =
      some (.mapping inst false) := by
  unfold assign_model_to_least_loaded_instance at h ⊢
  cases hsel : selectMinByCount (tallyInstanceCounts env s) with
  | none => rw [hsel] at h; simp at h
  | some p =>
    cases p with
    | mk i c =>
      rw [hsel] at h
      dsimp only at h ⊢
      have hi : i = inst := by simpa using h
      subst hi
      exact set_model_mapping_shm_stores m i false s

/-- Claim C10 as amended: `assign_model_to_least_loaded_instance` does
write the placement record (model → selected instance, running = false)
into the store, and a `pull_model` with no target instance routes
placement through it, leaving that record behind even when the pull never
completes; the record does not, however, raise the selected instance's
tally in later selections (see the counterexample). -/
theorem c10_assign_writes_placement :
    (∀ (env : Env) (s : RouterState) (m inst : String),
      (assign_model_to_least_loaded_instance m env s).2 = some inst →
      sget (assign_model_to_least_loaded_instance m env s).1.shm m =
        some (.mapping inst false)) ∧
    (∀ (env : Env) (s : RouterState) (m : String) (tag : Option String)
      (inst : String),
      m ≠ "" →
      (sget env.running (m ++ ":" ++ tag.getD "latest")).getD [] = [] →
      (assign_model_to_least_loaded_instance
          (m ++ ":" ++ tag.getD "latest") env s).2 = some inst →
      sget (pull_model m tag none env s).1.shm
          (m ++ ":" ++ tag.getD "latest") = some (.mapping inst false)) := by
  constructor
  · exact assign_writes_mapping
  · intro env s m tag inst hm hrun hassign
    unfold pull_model
    rw [if_neg hm]
    dsimp only
    have hA : assign_model_to_least_loaded_instance
        (m ++ ":" ++ tag.getD "latest") env s =
        ((assign_model_to_least_loaded_instance
          (m ++ ":" ++ tag.getD "latest") env s).1, some inst) :=
      Prod.ext rfl hassign
    rw [hA]
    dsimp only
    set s1 := (assign_model_to_least_loaded_instance
      (m ++ ":" ++ tag.getD "latest") env s).1 with hs1
    set T := lock_model_loading (m ++ ":" ++ tag.getD "latest") inst env s1
      with hT
    have hTeta : T = (T.1, T.2.1, T.2.2) := Prod.ext rfl Prod.mk.eta.symm
    rw [hTeta]
    dsimp only
    rw [after_lock_preserves_key env T.1 (m ++ ":" ++ tag.getD "latest") inst
      (m ++ ":" ++ tag.getD "latest") T.2.1 T.2.2
      (pull_key_ne_model env _) (loading_key_ne_model _)]
    rw [hT, lock_preserves_other_keys env s1 (m ++ ":" ++ tag.getD "latest")
      inst (m ++ ":" ++ tag.getD "latest") hrun (loading_key_ne_model _)]
    exact assign_writes_mapping env s (m ++ ":" ++ tag.getD "latest") inst hassign

/-- Witness for C10's amended theorem at concrete inputs. -/
theorem c10_witness :
    sget (assign_model_to_least_loaded_instance "m" wEnv wS0).1.shm "m" =
      some (.mapping "polyllama1" false) ∧
    sget (pull_model "m" none none wEnv wS0).1.shm "m:latest" =
      some (.mapping "polyllama1" false) :=
  ⟨c10_assign_writes_placement.1 wEnv wS0 "m" "polyllama1" (by decide),
   c10_assign_writes_placement.2 wEnv wS0 "m" none "polyllama1"
     (by decide) (by decide) (by decide)⟩

/-- Claim C7 counterexample: when the lock is refused with no reported
owner (exactly the shape `lock_model_loading` returns when the post-
cleanup retry fails), `pull_model`'s guard does not fire — the pull
proceeds, reports success, and creates a pull job record. -/
theorem c7_counterexample_pull_proceeds_unlocked :
    (pull_model_after_lock wEnv wS0 "m:latest" "polyllama1" false none).2.success
      = true ∧
    sget (pull_model_after_lock wEnv wS0 "m:latest" "polyllama1" false
        none).1.shm "pull_status:pull_100_0_m_latest" ≠ none := by decide

/-- Claim C7 as amended: a lock entry with no readable owner is
self-healed — the entry is deleted and the add retried once, after which
the caller holds the lock; when even the retry fails the lock call
reports `acquired = false` with no owner, but `pull_model` then proceeds
to create a pull job rather than treating it as a hard failure. -/
theorem c7_corrupt_lock_self_heal :
    (∀ (env : Env) (s : RouterState) (M inst : String),
      (sget env.running M).getD [] = [] →
      sget s.shm ("loading:" ++ M) = some .corrupt →
      (lock_model_loading M inst env s).2.1 = true ∧
      sget (lock_model_loading M inst env s).1.shm ("loading:" ++ M) =
        some (.lockVal inst)) ∧
    (∀ (env : Env) (s : RouterState) (full target : String),
      ∃ ps, sget (pull_model_after_lock env s full target false none).1.shm
        ("pull_status:" ++ pullIdOf env full) = some (.pullStatus ps)) := by
  constructor
  · intro env s M inst hrun hv
    unfold lock_model_loading
    rw [isRunning_force_none env s M hrun]
    dsimp only
    simp only [force_refresh_shm]
    have hd := sget_shmDelete_self s.shm ("loading:" ++ M)
    simp only [shmAdd, hv, ShmVal.asLuaString, Option.bind, hd]
    simp [sget]
  · intro env s full target
    unfold pull_model_after_lock
    dsimp only
    split
    · rename_i hgate
      simp at hgate
    · split
      · exact ⟨_, sget_shmSet_self _ _ _⟩
      · unfold unlock_model_loading
        simp only [invalidate_shm]
        rw [sget_shmDelete_ne _ _ _
          (loading_key_ne_pull_status_key full (pullIdOf env full))]
        exact ⟨_, sget_shmSet_self _ _ _⟩

/-- Claim C5: while a pull job is `in_progress`, a `get_pull_status` call
that observes the model running anywhere completes the job — progress
100, `completed_at` stamped, record written back, loading lock released —
and a call more than 1800 s after `started_at` with the model not
observed running (neither by the backends nor by the worker cache) times
the job out and releases the lock. -/
theorem c5_poll_completes_or_times_out :
    (∀ (env : Env) (s : RouterState) (pid : String) (ps : PullStatus)
      (i : String) (l : List String),
      pid ≠ "" →
      sget s.shm ("pull_status:" ++ pid) = some (.pullStatus ps) →
      ps.status = .in_progress →
      sget env.running ps.model = some (i :: l) →
      (get_pull_status pid env s).2 =
        { success := true, pull_status := some { ps with
            status := .completed, progress := 100, stage := "Completed",
            completed_at := some env.now } } ∧
      sget (get_pull_status pid env s).1.shm ("pull_status:" ++ pid) =
        some (.pullStatus { ps with
          status := .completed, progress := 100, stage := "Completed",
          completed_at := some env.now }) ∧
      sget (get_pull_status pid env s).1.shm ("loading:" ++ ps.model) = none) ∧
    (∀ (env : Env) (s : RouterState) (pid : String) (ps : PullStatus),
      pid ≠ "" →
      sget s.shm ("pull_status:" ++ pid) = some (.pullStatus ps) →
      ps.status = .in_progress →
      (sget env.running ps.model).getD [] = [] →
      (sget s.cacheData ps.model).getD [] = [] →
      env.now - ps.started_at > 1800 →
      (get_pull_status pid env s).2 =
        { success := true, pull_status := some { ps with
            status := .timeout, stage := "Timeout after 30 minutes",
            completed_at := some env.now } } ∧
      sget (get_pull_status pid env s).1.shm ("pull_status:" ++ pid) =
        some (.pullStatus { ps with
          status := .timeout, stage := "Timeout after 30 minutes",
          completed_at := some env.now }) ∧
      sget (get_pull_status pid env s).1.shm ("loading:" ++ ps.model) = none) := by
  constructor
  · intro env s pid ps i l hpid hstore hinp hrun
    unfold get_pull_status
    rw [if_neg hpid]
    dsimp only
    rw [hstore]
    dsimp only
    rw [if_pos hinp]
    have hI : is_model_running_on_any_instance ps.model false env s =
        ((is_model_running_on_any_instance ps.model false env s).1,
         (is_model_running_on_any_instance ps.model false env s).2) :=
      Prod.mk.eta.symm
    rw [hI]
    dsimp only
    obtain ⟨j, hj⟩ := Option.isSome_iff_exists.mp
      (isRunning_isSome_of env s ps.model i l hrun)
    rw [hj]
    dsimp only
    refine ⟨rfl, ?_, ?_⟩
    · unfold unlock_model_loading
      simp only [invalidate_shm]
      rw [sget_shmDelete_ne _ _ _ (loading_key_ne_pull_status_key ps.model pid)]
      exact sget_shmSet_self _ _ _
    · unfold unlock_model_loading
      simp only [invalidate_shm]
      exact sget_shmDelete_self _ _
  · intro env s pid ps hpid hstore hinp hrun hcache h1800
    unfold get_pull_status
    rw [if_neg hpid]
    dsimp only
    rw [hstore]
    dsimp only
    rw [if_pos hinp]
    have hI : is_model_running_on_any_instance ps.model false env s =
        ((is_model_running_on_any_instance ps.model false env s).1,
         (is_model_running_on_any_instance ps.model false env s).2) :=
      Prod.mk.eta.symm
    rw [hI]
    dsimp only
    rw [isRunning_none_of env s ps.model hrun hcache]
    dsimp only
    rw [if_pos h1800]
    refine ⟨rfl, ?_, ?_⟩
    · unfold unlock_model_loading
      simp only [invalidate_shm]
      rw [sget_shmDelete_ne _ _ _ (loading_key_ne_pull_status_key ps.model pid)]
      exact sget_shmSet_self _ _ _
    · unfold unlock_model_loading
      simp only [invalidate_shm]
      exact sget_shmDelete_self _ _

/-- Witness for C5 at concrete inputs: the same stored job either
completes (model observed running) or times out (clock at 2000, job
started at 100). -/
theorem c5_witness :
    ((get_pull_status "pull_100_0_m_latest" wEnvRunningM wSPull).2 =
        { success := true, pull_status := some { wPS with
            status := .completed, progress := 100, stage := "Completed",
            completed_at := some 100 } } ∧
      sget (get_pull_status "pull_100_0_m_latest" wEnvRunningM
          wSPull).1.shm "pull_status:pull_100_0_m_latest" =
        some (.pullStatus { wPS with
          status := .completed, progress := 100, stage := "Completed",
          completed_at := some 100 }) ∧
      sget (get_pull_status "pull_100_0_m_latest" wEnvRunningM
          wSPull).1.shm ("loading:" ++ wPS.model) = none) ∧
    ((get_pull_status "pull_100_0_m_latest" wEnvLate wSPull).2 =
        { success := true, pull_status := some { wPS with
            status := .timeout, stage := "Timeout after 30 minutes",
            completed_at := some 2000 } } ∧
      sget (get_pull_status "pull_100_0_m_latest" wEnvLate
          wSPull).1.shm "pull_status:pull_100_0_m_latest" =
        some (.pullStatus { wPS with
          status := .timeout, stage := "Timeout after 30 minutes",
          completed_at := some 2000 }) ∧
      sget (get_pull_status "pull_100_0_m_latest" wEnvLate
          wSPull).1.shm ("loading:" ++ wPS.model) = none) :=
  ⟨c5_poll_completes_or_times_out.1 wEnvRunningM wSPull
      "pull_100_0_m_latest" wPS "polyllama2" [] (by decide) (by decide)
      (by decide) (by decide),
   c5_poll_completes_or_times_out.2 wEnvLate wSPull
      "pull_100_0_m_latest" wPS (by decide) (by decide) (by decide)
      (by decide) (by decide) (by decide)⟩

/-- Claim C9 counterexample: pull ids are derived from
(second, worker id, model), so two `pull_model` calls for the same model
in the same second share one record; when the first initiation fails
(`failed`, rank 2) and the second succeeds, the shared record regresses
to `in_progress` (rank 1). -/
theorem c9_counterexample_id_reuse_regression :
    sget (pull_model "m" none (some "polyllama1") wEnvPullFail wS0).1.shm
        "pull_status:pull_100_0_m_latest" =
      some (.pullStatus
        { id := "pull_100_0_m_latest", model := "m:latest",
          instance_ := "polyllama1", status := .failed, progress := 0,
          started_at := 100, completed_at := some 100, stage := "Initializing",
          error := some "pull request failed" }) ∧
    sget (pull_model "m" none (some "polyllama1") wEnv
        (pull_model "m" none (some "polyllama1") wEnvPullFail wS0).1).1.shm
        "pull_status:pull_100_0_m_latest" =
      some (.pullStatus
        { id := "pull_100_0_m_latest", model := "m:latest",
          instance_ := "polyllama1", status := .in_progress, progress := 0,
          started_at := 100, completed_at := none, stage := "Downloading",
          error := none }) ∧
    statusRank .in_progress < statusRank .failed := by decide

theorem after_lock_record_of_pull_id {env : Env} {s : RouterState}
    {full target : String} {acq : Bool} {owner : Option String} {pid : String}
    (h : (pull_model_after_lock env s full target acq owner).2.pull_id = some pid) :
    ∃ ps', sget (pull_model_after_lock env s full target acq owner).1.shm
        ("pull_status:" ++ pid) = some (.pullStatus ps') ∧
      (ps'.status = .in_progress ∨ ps'.status = .failed) := by
  unfold pull_model_after_lock at h ⊢
  by_cases hgate : (!acq && owner.isSome) = true
  · rw [if_pos hgate] at h
    simp at h
  · rw [if_neg hgate] at h ⊢
    dsimp only at h ⊢
    by_cases hok : env.pullOk target = true
    · rw [if_pos hok] at h ⊢
      have hid : pullIdOf env full = pid := by simpa using h
      rw [← hid]
      exact ⟨_, sget_shmSet_self _ _ _, Or.inl rfl⟩
    · rw [if_neg hok] at h ⊢
      have hid : pullIdOf env full = pid := by simpa using h
      rw [← hid]
      unfold unlock_model_loading
      simp only [invalidate_shm]
      rw [sget_shmDelete_ne _ _ _
        (loading_key_ne_pull_status_key full (pullIdOf env full))]
      exact ⟨_, sget_shmSet_self _ _ _, Or.inr rfl⟩

/-- Claim C9 as amended: `get_pull_status` never lowers the rank of a
stored record (neither in the store nor in the view it returns), and a
single `pull_model` call leaves its own record at `in_progress` or
`failed`, forward of the `starting` it begins with; regressions can occur
only through pull-id reuse, where a second call overwrites an earlier
job's record (see the counterexample). -/
theorem c9_status_monotone_per_step :
    (∀ (env : Env) (s : RouterState) (pid : String) (ps ps' : PullStatus),
      sget s.shm ("pull_status:" ++ pid) = some (.pullStatus ps) →
      (sget (get_pull_status pid env s).1.shm ("pull_status:" ++ pid) =
          some (.pullStatus ps') →
        statusRank ps.status ≤ statusRank ps'.status) ∧
      ((get_pull_status pid env s).2.pull_status = some ps' →
        statusRank ps.status ≤ statusRank ps'.status)) ∧
    (∀ (env : Env) (s : RouterState) (m : String) (tag ti : Option String)
      (pid : String),
      (pull_model m tag ti env s).2.pull_id = some pid →
      ∃ ps', sget (pull_model m tag ti env s).1.shm ("pull_status:" ++ pid) =
          some (.pullStatus ps') ∧
        (ps'.status = .in_progress ∨ ps'.status = .failed)) := by
  constructor
  · intro env s pid ps ps' hstore
    by_cases hpid : pid = ""
    · subst hpid
      unfold get_pull_status
      rw [if_pos rfl]
      constructor
      · intro h'
        rw [hstore] at h'
        simp at h'
        subst h'
        exact le_refl _
      · intro h'
        simp at h'
    · unfold get_pull_status
      rw [if_neg hpid]
      dsimp only
      rw [hstore]
      dsimp only
      by_cases hinp : ps.status = .in_progress
      · rw [if_pos hinp]
        have hI : is_model_running_on_any_instance ps.model false env s =
            ((is_model_running_on_any_instance ps.model false env s).1,
             (is_model_running_on_any_instance ps.model false env s).2) :=
          Prod.mk.eta.symm
        rw [hI]
        dsimp only
        cases hj : (is_model_running_on_any_instance ps.model false env s).2 with
        | some j =>
          dsimp only
          constructor
          · intro h'
            unfold unlock_model_loading at h'
            simp only [invalidate_shm] at h'
            rw [sget_shmDelete_ne _ _ _
              (loading_key_ne_pull_status_key ps.model pid),
              sget_shmSet_self] at h'
            simp at h'
            subst h'
            dsimp only
            rw [hinp]
            decide
          · intro h'
            simp at h'
            subst h'
            dsimp only
            rw [hinp]
            decide
        | none =>
          dsimp only
          by_cases h18 : env.now - ps.started_at > 1800
          · rw [if_pos h18]
            constructor
            · intro h'
              unfold unlock_model_loading at h'
              simp only [invalidate_shm] at h'
              rw [sget_shmDelete_ne _ _ _
                (loading_key_ne_pull_status_key ps.model pid),
                sget_shmSet_self] at h'
              simp at h'
              subst h'
              dsimp only
              rw [hinp]
              decide
            · intro h'
              simp at h'
              subst h'
              dsimp only
              rw [hinp]
              decide
          · rw [if_neg h18]
            constructor
            · intro h'
              rw [isRunning_shm_eq, hstore] at h'
              simp at h'
              subst h'
              exact le_refl _
            · intro h'
              simp at h'
              subst h'
              exact le_refl _
      · rw [if_neg hinp]
        constructor
        · intro h'
          rw [hstore] at h'
          simp at h'
          subst h'
          exact le_refl _
        · intro h'
          simp at h'
          subst h'
          exact le_refl _
  · intro env s m tag ti pid hpid
    unfold pull_model at hpid ⊢
    by_cases hm : m = ""
    · rw [if_pos hm] at hpid
      simp at hpid
    · rw [if_neg hm] at hpid ⊢
      dsimp only at hpid ⊢
      cases ti with
      | some t =>
        dsimp only at hpid ⊢
        have hT : lock_model_loading (m ++ ":" ++ tag.getD "latest") t env s =
            ((lock_model_loading (m ++ ":" ++ tag.getD "latest") t env s).1,
             (lock_model_loading (m ++ ":" ++ tag.getD "latest") t env s).2.1,
             (lock_model_loading (m ++ ":" ++ tag.getD "latest") t env s).2.2) :=
          Prod.ext rfl Prod.mk.eta.symm
        rw [hT] at hpid ⊢
        dsimp only at hpid ⊢
        exact after_lock_record_of_pull_id hpid
      | none =>
        have hA : assign_model_to_least_loaded_instance
            (m ++ ":" ++ tag.getD "latest") env s =
            ((assign_model_to_least_loaded_instance
                (m ++ ":" ++ tag.getD "latest") env s).1,
             (assign_model_to_least_loaded_instance
                (m ++ ":" ++ tag.getD "latest") env s).2) := Prod.mk.eta.symm
        rw [hA] at hpid ⊢
        dsimp only at hpid ⊢
        cases hA2 : (assign_model_to_least_loaded_instance
            (m ++ ":" ++ tag.getD "latest") env s).2 with
        | none =>
          rw [hA2] at hpid
          simp at hpid
        | some t =>
          rw [hA2] at hpid
          dsimp only at hpid
          exact after_lock_record_of_pull_id hpid

/-- Witness for C9's amended theorem at concrete inputs: polling the
stored `in_progress` job completes it (rank can only rise), and a
concrete `pull_model` leaves its record at `in_progress`. -/
theorem c9_witness :
    statusRank wPS.status ≤ statusRank PStatus.completed ∧
    (∃ ps', sget (pull_model "m" none (some "polyllama1") wEnv wS0).1.shm
        ("pull_status:" ++ "pull_100_0_m_latest") = some (.pullStatus ps') ∧
      (ps'.status = .in_progress ∨ ps'.status = .failed)) :=
  ⟨(c9_status_monotone_per_step.1 wEnvRunningM wSPull "pull_100_0_m_latest"
      wPS
      { wPS with
        status := .completed, progress := 100, stage := "Completed",
        completed_at := some 100 } (by decide)).1 (by decide),
   c9_status_monotone_per_step.2 wEnv wS0 "m" none (some "polyllama1")
     "pull_100_0_m_latest" (by decide)⟩

/-- Witness for C7's amended theorem at concrete inputs. -/
theorem c7_witness :
    ((lock_model_loading "m" "polyllama1" wEnv wSCorrupt).2.1 = true ∧
      sget (lock_model_loading "m" "polyllama1" wEnv wSCorrupt).1.shm
        "loading:m" = some (.lockVal "polyllama1")) ∧
    (∃ ps, sget (pull_model_after_lock wEnv wS0 "m:latest" "polyllama1" false
        none).1.shm ("pull_status:" ++ pullIdOf wEnv "m:latest") =
      some (.pullStatus ps)) :=
  ⟨c7_corrupt_lock_self_heal.1 wEnv wSCorrupt "m" "polyllama1"
      (by decide) (by decide),
   c7_corrupt_lock_self_heal.2 wEnv wS0 "m:latest" "polyllama1"⟩

end PolyLlama
